import Mathlib

/-!
Shallow embedding of the FRACTIS testnet node core (consensus/quorum
validation, peer registry lifecycle, bootstrap retry, stake gate, and the
address-derivation utility) together with theorems checking the
specification's claims against it.

Sources embedded: src/node/consensus.rs, src/node/network.rs,
src/utils/address.rs. Times are naturals (the code's `Instant`/`Duration`
arithmetic saturates at zero, matching truncated `Nat` subtraction).
-/

namespace Fractis

/-! ## Consensus core (src/node/consensus.rs) -/

/-- Modelled from the spec: `Transaction` — signature, originating identity,
creation timestamp, opaque payload; the type is consumed but not declared in
the sources. The signature scheme is pluggable per the spec, so
`Transaction::verify_signature` (verification against the declared origin) is
embedded as the boolean field `sigValid`; the opaque payload is a `Nat`. -/
structure Transaction where
  sigValid : Bool
  timestamp : Nat
  payload : Nat
deriving DecidableEq

/-- Modelled from the spec: `Validator` — identity plus the capability to
assert "confirms transaction T" (`Validator::verify_transaction`), a
polymorphic remote check embedded as a boolean-valued function. -/
structure Validator where
  confirms : Transaction → Bool

/-- `ConsensusManager` (consensus.rs lines 7-12). `Hash` and `Instant` are
embedded as naturals. -/
structure ConsensusManager where
  last_block_hash : Nat
  validators : List Validator
  consensus_timeout : Nat
  last_consensus : Nat

/-- `ConsensusManager::verify_signature` (consensus.rs lines 42-44):
delegates to `transaction.verify_signature()`. -/
def ConsensusManager.verify_signature (_m : ConsensusManager) (t : Transaction) : Bool :=
  t.sigValid

/-- `ConsensusManager::verify_timestamp` (consensus.rs lines 46-51):
`now.duration_since(transaction.timestamp) < consensus_timeout`.
`duration_since` saturates at zero, as does `Nat` subtraction. -/
def ConsensusManager.verify_timestamp (m : ConsensusManager) (t : Transaction) (now : Nat) : Bool :=
  decide (now - t.timestamp < m.consensus_timeout)

/-- `ConsensusManager::get_validator_confirmations` (consensus.rs lines
53-61): a counter incremented once per validator whose
`verify_transaction` returns true. -/
def ConsensusManager.get_validator_confirmations (m : ConsensusManager) (t : Transaction) : Nat :=
  m.validators.foldl (fun confirmations v =>
    if v.confirms t then confirmations + 1 else confirmations) 0

/-- `ConsensusManager::validate_transaction` (consensus.rs lines 24-40):
early `return false` on signature failure, then on timestamp failure, then
the quorum comparison `confirmations > validators.len() * 2 / 3`. The Rust
method returns a bare `bool`. -/
def ConsensusManager.validate_transaction (m : ConsensusManager) (t : Transaction) (now : Nat) :
    Bool :=
  if !m.verify_signature t then false
  else if !m.verify_timestamp t now then false
  else decide (m.get_validator_confirmations t > m.validators.length * 2 / 3)

/-- The spec's rejection reasons for a transaction evaluation. -/
inductive RejectReason
  | BadSignature
  | StaleTransaction
  | QuorumNotReached
deriving DecidableEq

/-- Terminal state of one transaction evaluation per the spec's state
machine. -/
inductive EvalOutcome
  | Accepted
  | Rejected (reason : RejectReason)
deriving DecidableEq

/-- The branch structure of `validate_transaction`: which early `return
false` fires (identifying the spec's rejection reason), or acceptance. This
records the source's control flow; the source method itself reports only the
boolean to its caller. -/
def ConsensusManager.evaluate (m : ConsensusManager) (t : Transaction) (now : Nat) :
    EvalOutcome :=
  if !m.verify_signature t then .Rejected .BadSignature
  else if !m.verify_timestamp t now then .Rejected .StaleTransaction
  else if m.get_validator_confirmations t > m.validators.length * 2 / 3 then .Accepted
  else .Rejected .QuorumNotReached

/-- `validate_transaction` takes `&self` (an immutable borrow), so in
explicit state-passing form the evaluation returns the manager unchanged
alongside the boolean verdict. -/
def ConsensusManager.validate_transaction_full (m : ConsensusManager) (t : Transaction)
    (now : Nat) : Bool × ConsensusManager :=
  (m.validate_transaction t now, m)

/-- A validator set in which exactly `c` of `n` validators confirm every
transaction (used to realise an arbitrary confirmation tally `c ≤ n`). -/
def mkValidators (c n : Nat) : List Validator :=
  List.replicate c ⟨fun _ => true⟩ ++ List.replicate (n - c) ⟨fun _ => false⟩

lemma foldl_confirm_true (t : Transaction) (k a : Nat) :
    (List.replicate k (⟨fun _ => true⟩ : Validator)).foldl
      (fun confirmations v => if v.confirms t then confirmations + 1 else confirmations) a
      = a + k := by
  induction k generalizing a with
  | zero => simp
  | succ k ih => simp [List.replicate_succ, ih]; omega

lemma foldl_confirm_false (t : Transaction) (k a : Nat) :
    (List.replicate k (⟨fun _ => false⟩ : Validator)).foldl
      (fun confirmations v => if v.confirms t then confirmations + 1 else confirmations) a
      = a := by
  induction k generalizing a with
  | zero => simp
  | succ k ih => simp [List.replicate_succ, ih]

lemma mkValidators_confirmations (lbh τ lc c n : Nat) (t : Transaction) :
    (ConsensusManager.mk lbh (mkValidators c n) τ lc).get_validator_confirmations t = c := by
  unfold ConsensusManager.get_validator_confirmations mkValidators
  rw [List.foldl_append, foldl_confirm_true, foldl_confirm_false]
  omega

lemma mkValidators_length (c n : Nat) (h : c ≤ n) : (mkValidators c n).length = n := by
  simp [mkValidators]
  omega

/-- C1: With a valid signature and a fresh timestamp, acceptance is exactly
`confirmations > floor(validator_count * 2 / 3)`; boundary cases: n=0 never
accepts, n=1 requires 1 confirmation, n=3 requires 3 (not 2), n=4
requires 3. -/
theorem validate_transaction_quorum_threshold (n c lbh τ lc ts pay now : Nat)
    (hcn : c ≤ n) (hfresh : now - ts < τ) :
    ((ConsensusManager.mk lbh (mkValidators c n) τ lc).validate_transaction
        (Transaction.mk true ts pay) now = true ↔ c > n * 2 / 3)
    ∧ (n = 0 → (ConsensusManager.mk lbh (mkValidators c n) τ lc).validate_transaction
        (Transaction.mk true ts pay) now = false)
    ∧ (n = 1 → ((ConsensusManager.mk lbh (mkValidators c n) τ lc).validate_transaction
        (Transaction.mk true ts pay) now = true ↔ c = 1))
    ∧ (n = 3 → ((ConsensusManager.mk lbh (mkValidators c n) τ lc).validate_transaction
        (Transaction.mk true ts pay) now = true ↔ c = 3))
    ∧ (n = 4 → ((ConsensusManager.mk lbh (mkValidators c n) τ lc).validate_transaction
        (Transaction.mk true ts pay) now = true ↔ 3 ≤ c)) := by
  have hval : (ConsensusManager.mk lbh (mkValidators c n) τ lc).validate_transaction
      (Transaction.mk true ts pay) now = decide (c > n * 2 / 3) := by
    unfold ConsensusManager.validate_transaction
    simp [ConsensusManager.verify_signature, ConsensusManager.verify_timestamp, hfresh,
      mkValidators_confirmations, mkValidators_length c n hcn]
  rw [hval]
  refine ⟨by simp, ?_, ?_, ?_, ?_⟩ <;> intro hn <;> subst hn <;> simp <;> omega

theorem validate_transaction_quorum_threshold_witness :
    (3 ≤ 4 ∧ 50 - 0 < 100)
    ∧ (((ConsensusManager.mk 0 (mkValidators 3 4) 100 0).validate_transaction
        (Transaction.mk true 0 0) 50 = true ↔ 3 > 4 * 2 / 3)
      ∧ (4 = 0 → (ConsensusManager.mk 0 (mkValidators 3 4) 100 0).validate_transaction
          (Transaction.mk true 0 0) 50 = false)
      ∧ (4 = 1 → ((ConsensusManager.mk 0 (mkValidators 3 4) 100 0).validate_transaction
          (Transaction.mk true 0 0) 50 = true ↔ 3 = 1))
      ∧ (4 = 3 → ((ConsensusManager.mk 0 (mkValidators 3 4) 100 0).validate_transaction
          (Transaction.mk true 0 0) 50 = true ↔ 3 = 3))
      ∧ (4 = 4 → ((ConsensusManager.mk 0 (mkValidators 3 4) 100 0).validate_transaction
          (Transaction.mk true 0 0) 50 = true ↔ 3 ≤ 3))) :=
  ⟨⟨by decide, by decide⟩,
    validate_transaction_quorum_threshold 4 3 0 100 0 0 0 50 (by decide) (by decide)⟩

/-- C2 counterexample: a stale transaction whose signature is also invalid is
rejected by the signature branch, not the timestamp branch, so the rejection
reason is `BadSignature`, not `StaleTransaction` — the claim's "regardless of
signature validity" fails for the reason (though not for the rejection). -/
theorem stale_with_bad_signature_counterexample :
    500 - (Transaction.mk false 0 0).timestamp ≥
        (ConsensusManager.mk 0 [] 100 0).consensus_timeout
    ∧ (ConsensusManager.mk 0 [] 100 0).evaluate (Transaction.mk false 0 0) 500
        ≠ EvalOutcome.Rejected RejectReason.StaleTransaction
    ∧ (ConsensusManager.mk 0 [] 100 0).evaluate (Transaction.mk false 0 0) 500
        = EvalOutcome.Rejected RejectReason.BadSignature := by
  decide

/-- C2 (amended): a transaction whose age is at least `consensus_timeout` is
always rejected (`validate_transaction` returns false), whatever its
signature and whatever the validators would answer; the rejecting branch is
the timestamp check (`StaleTransaction`) whenever the signature is valid. -/
theorem stale_transaction_always_rejected (m : ConsensusManager) (t : Transaction) (now : Nat)
    (hstale : now - t.timestamp ≥ m.consensus_timeout) :
    m.validate_transaction t now = false
    ∧ (t.sigValid = true →
        m.evaluate t now = EvalOutcome.Rejected RejectReason.StaleTransaction) := by
  have ht : m.verify_timestamp t now = false := by
    simp [ConsensusManager.verify_timestamp]
    omega
  constructor
  · unfold ConsensusManager.validate_transaction
    rw [ht]
    cases h : m.verify_signature t <;> simp
  · intro hsig
    unfold ConsensusManager.evaluate
    rw [ht]
    simp [ConsensusManager.verify_signature, hsig]

theorem stale_transaction_always_rejected_witness :
    ((500 : Nat) - (Transaction.mk true 0 0).timestamp ≥
        (ConsensusManager.mk 0 [] 100 0).consensus_timeout)
    ∧ ((ConsensusManager.mk 0 [] 100 0).validate_transaction (Transaction.mk true 0 0) 500 = false
      ∧ ((Transaction.mk true 0 0).sigValid = true →
          (ConsensusManager.mk 0 [] 100 0).evaluate (Transaction.mk true 0 0) 500
            = EvalOutcome.Rejected RejectReason.StaleTransaction)) :=
  ⟨by decide, stale_transaction_always_rejected (ConsensusManager.mk 0 [] 100 0)
    (Transaction.mk true 0 0) 500 (by decide)⟩

/-- C3: a transaction whose signature does not verify is rejected at the
signature branch (`BadSignature`), and the verdict is `false` for every
possible validator set — the validator-confirmation step never influences
the result. -/
theorem bad_signature_rejected_before_validators (m : ConsensusManager) (t : Transaction)
    (now : Nat) (hsig : t.sigValid = false) :
    m.validate_transaction t now = false
    ∧ m.evaluate t now = EvalOutcome.Rejected RejectReason.BadSignature
    ∧ ∀ vs : List Validator,
        (ConsensusManager.mk m.last_block_hash vs m.consensus_timeout
          m.last_consensus).validate_transaction t now = false := by
  refine ⟨?_, ?_, fun vs => ?_⟩ <;>
    simp [ConsensusManager.validate_transaction, ConsensusManager.evaluate,
      ConsensusManager.verify_signature, hsig]

theorem bad_signature_rejected_before_validators_witness :
    ((Transaction.mk false 3 0).sigValid = false)
    ∧ ((ConsensusManager.mk 0 [] 100 0).validate_transaction (Transaction.mk false 3 0) 9 = false
      ∧ (ConsensusManager.mk 0 [] 100 0).evaluate (Transaction.mk false 3 0) 9
          = EvalOutcome.Rejected RejectReason.BadSignature
      ∧ ∀ vs : List Validator,
          (ConsensusManager.mk 0 vs 100 0).validate_transaction (Transaction.mk false 3 0) 9
            = false) :=
  ⟨by decide, bad_signature_rejected_before_validators (ConsensusManager.mk 0 [] 100 0)
    (Transaction.mk false 3 0) 9 (by decide)⟩

/-- C4 counterexample: two rejections with different causes (bad signature
versus stale timestamp) produce the same caller-visible result, because
`validate_transaction` returns a bare `bool`: the caller cannot distinguish
the three rejection reasons. -/
theorem rejection_reason_not_distinguished_counterexample :
    (ConsensusManager.mk 0 [] 100 0).evaluate (Transaction.mk false 450 0) 500
        = EvalOutcome.Rejected RejectReason.BadSignature
    ∧ (ConsensusManager.mk 0 [] 100 0).evaluate (Transaction.mk true 0 0) 500
        = EvalOutcome.Rejected RejectReason.StaleTransaction
    ∧ (ConsensusManager.mk 0 [] 100 0).validate_transaction (Transaction.mk false 450 0) 500
        = (ConsensusManager.mk 0 [] 100 0).validate_transaction (Transaction.mk true 0 0) 500 := by
  decide

/-- C4 (amended): the caller of `validate_transaction` receives only a bare
boolean — `true` exactly when the evaluation accepts — so every rejection
cause collapses to `false` and the specific reason is not reported. -/
theorem validate_transaction_reports_only_boolean (m : ConsensusManager) (t : Transaction)
    (now : Nat) :
    m.validate_transaction t now = decide (m.evaluate t now = EvalOutcome.Accepted) := by
  by_cases h3 : m.get_validator_confirmations t > m.validators.length * 2 / 3 <;>
    cases h1 : m.verify_signature t <;> cases h2 : m.verify_timestamp t now <;>
      simp [ConsensusManager.validate_transaction, ConsensusManager.evaluate, h1, h2, h3]

/-- C9 counterexample: an accepted evaluation does not update the manager's
`last_consensus` field — the method takes `&self` and mutates nothing, so
the stored timestamp (7) stays distinct from the acceptance time (500). -/
theorem last_consensus_not_updated_counterexample :
    ((ConsensusManager.mk 0 [⟨fun _ => true⟩] 100 7).validate_transaction_full
        (Transaction.mk true 450 0) 500).1 = true
    ∧ ((ConsensusManager.mk 0 [⟨fun _ => true⟩] 100 7).validate_transaction_full
        (Transaction.mk true 450 0) 500).2.last_consensus = 7
    ∧ (7 : Nat) ≠ 500 := by
  decide

/-- C9 (amended): a transaction evaluation leaves every `ConsensusManager`
field unchanged — on acceptance and on rejection alike — since
`validate_transaction` borrows the manager immutably. -/
theorem validate_transaction_preserves_state (m : ConsensusManager) (t : Transaction)
    (now : Nat) :
    (m.validate_transaction_full t now).2 = m
    ∧ (m.validate_transaction_full t now).2.last_consensus = m.last_consensus
    ∧ (m.validate_transaction_full t now).2.last_block_hash = m.last_block_hash :=
  ⟨rfl, rfl, rfl⟩

/-! ## Peer lifecycle and node startup (src/node/network.rs) -/

/-- Modelled from the spec: `PeerInfo` — peer address (the registry key),
connection-state flag, last-activity timestamp; the type is consumed but not
declared in the sources. -/
structure PeerInfo where
  addr : Nat
  connected : Bool
  last_activity : Nat
deriving DecidableEq

/-- Modelled from the spec: `PeerInfo::new(addr)` — the entry registered on a
successful connection, hence live (connected), with a fresh (zero) activity
clock. -/
def PeerInfo.new (addr : Nat) : PeerInfo :=
  ⟨addr, true, 0⟩

/-- `PeerInfo::is_connected`, the connection-state flag read by the sweep. -/
def PeerInfo.is_connected (p : PeerInfo) : Bool :=
  p.connected

/-- The peer table `HashMap<SocketAddr, PeerInfo>` embedded as an association
list with one binding per address; socket addresses are naturals. -/
abbrev PeerRegistry := List (Nat × PeerInfo)

/-- `HashMap::insert(addr, info)`: replaces any existing binding for `addr`
(live or not) and adds the new one. Iteration order of the hash map is
irrelevant to the claims, so the new binding is appended. -/
def registryInsert (reg : PeerRegistry) (addr : Nat) (info : PeerInfo) : PeerRegistry :=
  (List.filter (fun e => e.1 != addr) reg) ++ [(addr, info)]

/-- Lookup of a binding in the registry, `HashMap::get`. -/
def registryLookup (reg : PeerRegistry) (addr : Nat) : Option PeerInfo :=
  (List.find? (fun e => e.1 == addr) reg).map (fun e => e.2)

/-- `Node::handle_connection` (network.rs lines 156-177): apply socket
options — `set_nodelay` and the keepalive configuration, each of which can
fail and abort the handshake via `?` — then unconditionally
`peers.write().insert(addr, PeerInfo::new(addr))`. The message hand-off is a
no-op. -/
def handle_connection (nodelayOk keepaliveOk : Bool) (addr : Nat) (reg : PeerRegistry) :
    Except String PeerRegistry :=
  if !nodelayOk then Except.error "set_nodelay failed"
  else if !keepaliveOk then Except.error "set_tcp_keepalive failed"
  else Except.ok (registryInsert reg addr (PeerInfo.new addr))

/-- `Node::cleanup_disconnected_peers` (network.rs lines 202-212):
`peers.retain(|addr, peer| peer.is_connected())`, warning once per removed
peer. The `warn!` log of removed addresses is embedded as the second
component (the source function itself returns unit). -/
def cleanup_disconnected_peers (reg : PeerRegistry) : PeerRegistry × List Nat :=
  (List.filter (fun e => e.2.is_connected) reg,
   List.map (fun e => e.1) (List.filter (fun e => !e.2.is_connected) reg))

/-- C5 counterexample: a live (connected) entry at address 1 with activity
timestamp 42 is silently replaced by a fresh `PeerInfo` when a new
connection from the same address registers — `insert` is unconditional. -/
theorem live_entry_overwritten_counterexample :
    (PeerInfo.mk 1 true 42).is_connected = true
    ∧ registryLookup [(1, PeerInfo.mk 1 true 42)] 1 = some (PeerInfo.mk 1 true 42)
    ∧ handle_connection true true 1 [(1, PeerInfo.mk 1 true 42)]
        = Except.ok [(1, PeerInfo.new 1)]
    ∧ registryLookup [(1, PeerInfo.new 1)] 1 ≠ some (PeerInfo.mk 1 true 42) :=
  ⟨rfl, rfl, rfl, by decide⟩

lemma find?_key_filter_ne (reg : List (Nat × PeerInfo)) (addr : Nat) :
    List.find? (fun e => e.1 == addr) (List.filter (fun e => e.1 != addr) reg) = none := by
  apply List.find?_eq_none.mpr
  intro x hx
  rcases List.mem_filter.mp hx with ⟨_, hne⟩
  simpa using hne

lemma find?_key_filter_other (reg : List (Nat × PeerInfo)) (addr a : Nat) (ha : a ≠ addr) :
    List.find? (fun e => e.1 == a) (List.filter (fun e => e.1 != addr) reg)
      = List.find? (fun e => e.1 == a) reg := by
  induction reg with
  | nil => rfl
  | cons e reg ih =>
    by_cases hq : e.1 = addr
    · have hp : (e.1 == a) = false := by
        simp [hq]
        omega
      rw [List.filter_cons_of_neg (by simp [hq])]
      simp [List.find?, hp, ih]
    · rw [List.filter_cons_of_pos (by simp [hq])]
      cases hp : (e.1 == a) <;> simp [List.find?, hp, ih]

lemma registryLookup_insert (reg : PeerRegistry) (addr : Nat) (info : PeerInfo) :
    registryLookup (registryInsert reg addr info) addr = some info := by
  unfold registryLookup registryInsert
  rw [List.find?_append, find?_key_filter_ne]
  simp [List.find?]

lemma registryLookup_insert_other (reg : PeerRegistry) (addr a : Nat) (info : PeerInfo)
    (ha : a ≠ addr) :
    registryLookup (registryInsert reg addr info) a = registryLookup reg a := by
  unfold registryLookup registryInsert
  rw [List.find?_append]
  have h1 : List.find? (fun e => e.1 == a) [(addr, info)] = none := by
    have hne : (addr == a) = false := by
      simp
      omega
    simp [List.find?, hne]
  rw [h1, find?_key_filter_other reg addr a ha]
  cases List.find? (fun e => e.1 == a) reg <;> rfl

/-- C5 (amended): a successful registration unconditionally installs
`PeerInfo::new(addr)` as the binding for `addr`, overwriting any existing
entry there, live or dead; bindings at other addresses are untouched. -/
theorem handle_connection_overwrites (nodelayOk keepaliveOk : Bool) (addr : Nat)
    (reg reg' : PeerRegistry)
    (hok : handle_connection nodelayOk keepaliveOk addr reg = Except.ok reg') :
    registryLookup reg' addr = some (PeerInfo.new addr)
    ∧ ∀ a, a ≠ addr → registryLookup reg' a = registryLookup reg a := by
  unfold handle_connection at hok
  cases nodelayOk <;> cases keepaliveOk <;> simp at hok
  subst hok
  exact ⟨registryLookup_insert reg addr (PeerInfo.new addr),
    fun a ha => registryLookup_insert_other reg addr a (PeerInfo.new addr) ha⟩

theorem handle_connection_overwrites_witness :
    (handle_connection true true 1 [(1, PeerInfo.mk 1 true 42), (2, PeerInfo.mk 2 false 9)]
        = Except.ok [(2, PeerInfo.mk 2 false 9), (1, PeerInfo.new 1)])
    ∧ (registryLookup [(2, PeerInfo.mk 2 false 9), (1, PeerInfo.new 1)] 1
          = some (PeerInfo.new 1)
      ∧ ∀ a, a ≠ 1 →
          registryLookup [(2, PeerInfo.mk 2 false 9), (1, PeerInfo.new 1)] a
            = registryLookup [(1, PeerInfo.mk 1 true 42), (2, PeerInfo.mk 2 false 9)] a) :=
  ⟨rfl, handle_connection_overwrites true true 1
    [(1, PeerInfo.mk 1 true 42), (2, PeerInfo.mk 2 false 9)]
    [(2, PeerInfo.mk 2 false 9), (1, PeerInfo.new 1)] rfl⟩

/-- C6: the sweep removes exactly the entries whose connection-state is
false: afterwards every surviving entry is connected, every connected entry
of the original registry survives unchanged, nothing new appears, and the
reported (logged) addresses are exactly those of the disconnected
entries. -/
theorem cleanup_disconnected_peers_spec (reg : PeerRegistry) :
    (∀ e ∈ (cleanup_disconnected_peers reg).1, e.2.is_connected = true)
    ∧ (∀ e ∈ reg, e.2.is_connected = true → e ∈ (cleanup_disconnected_peers reg).1)
    ∧ (∀ e ∈ (cleanup_disconnected_peers reg).1, e ∈ reg)
    ∧ (∀ a : Nat, a ∈ (cleanup_disconnected_peers reg).2 ↔
        ∃ p : PeerInfo, (a, p) ∈ reg ∧ p.is_connected = false) := by
  refine ⟨?_, ?_, ?_, ?_⟩
  · intro e he
    exact (List.mem_filter.mp he).2
  · intro e he hc
    exact List.mem_filter.mpr ⟨he, hc⟩
  · intro e he
    exact (List.mem_filter.mp he).1
  · intro a
    constructor
    · intro ha
      rcases List.mem_map.mp ha with ⟨e, he, rfl⟩
      rcases List.mem_filter.mp he with ⟨hmem, hnc⟩
      exact ⟨e.2, hmem, by simpa using hnc⟩
    · rintro ⟨p, hmem, hnc⟩
      exact List.mem_map.mpr ⟨(a, p), List.mem_filter.mpr ⟨hmem, by simp [hnc]⟩, rfl⟩

theorem cleanup_disconnected_peers_spec_witness :
    ((1, PeerInfo.mk 1 true 5)
        ∈ (cleanup_disconnected_peers
            [(1, PeerInfo.mk 1 true 5), (2, PeerInfo.mk 2 false 3)]).1)
    ∧ (2 ∈ (cleanup_disconnected_peers
        [(1, PeerInfo.mk 1 true 5), (2, PeerInfo.mk 2 false 3)]).2) :=
  ⟨(cleanup_disconnected_peers_spec
      [(1, PeerInfo.mk 1 true 5), (2, PeerInfo.mk 2 false 3)]).2.1
      (1, PeerInfo.mk 1 true 5) (by decide) (by decide),
   ((cleanup_disconnected_peers_spec
      [(1, PeerInfo.mk 1 true 5), (2, PeerInfo.mk 2 false 3)]).2.2.2 2).mpr
      ⟨PeerInfo.mk 2 false 3, by decide, by decide⟩⟩

/-- `MAX_RECONNECT_ATTEMPTS` (network.rs line 18). -/
def MAX_RECONNECT_ATTEMPTS : Nat := 3

/-- `RECONNECT_DELAY` (network.rs line 17), in seconds. -/
def RECONNECT_DELAY_SECS : Nat := 5

/-- Observable steps of the bootstrap phase: a `TcpStream::connect` attempt
at a seed, a successful registration (`handle_outbound_connection` then
`break`), and a `sleep(RECONNECT_DELAY)`. -/
inductive BootEvent
  | connectTry (seed : String)
  | registered (seed : String)
  | sleepDelay (secs : Nat)
deriving DecidableEq

/-- The per-seed `while attempts < MAX_RECONNECT_ATTEMPTS` retry loop of
`connect_to_bootstrap_nodes` (network.rs lines 129-151), recorded as its
event trace. `cOk a` tells whether the connect on iteration with counter
value `a` succeeds; `hOk a` whether the subsequent
`handle_outbound_connection` succeeds. On a connect failure the code sleeps
only if attempts remain; on a handle failure it always sleeps and retries;
on full success it breaks. `fuel` bounds the iterations (the counter grows
each non-breaking iteration, so `MAX_RECONNECT_ATTEMPTS` fuel is exact). -/
def seed_retry_loop (cOk hOk : Nat → Bool) (seed : String) : Nat → Nat → List BootEvent
  | _, 0 => []
  | attempts, fuel + 1 =>
    if attempts < MAX_RECONNECT_ATTEMPTS then
      if cOk attempts then
        if hOk attempts then
          [BootEvent.connectTry seed, BootEvent.registered seed]
        else
          [BootEvent.connectTry seed, BootEvent.sleepDelay RECONNECT_DELAY_SECS]
            ++ seed_retry_loop cOk hOk seed (attempts + 1) fuel
      else
        if attempts + 1 < MAX_RECONNECT_ATTEMPTS then
          [BootEvent.connectTry seed, BootEvent.sleepDelay RECONNECT_DELAY_SECS]
            ++ seed_retry_loop cOk hOk seed (attempts + 1) fuel
        else
          [BootEvent.connectTry seed] ++ seed_retry_loop cOk hOk seed (attempts + 1) fuel
    else []

/-- `Node::connect_to_bootstrap_nodes` (network.rs lines 127-154): the
seeds are processed in configuration order, each through its retry loop;
every failure is absorbed inside the loop and the function ends with
`Ok(())` unconditionally. -/
def connect_to_bootstrap_nodes (cOk hOk : String → Nat → Bool) (seeds : List String) :
    List BootEvent × Except String Unit :=
  ((List.map (fun s => seed_retry_loop (cOk s) (hOk s) s 0 MAX_RECONNECT_ATTEMPTS)
      seeds).flatten,
   Except.ok ())

/-- C7: a seed whose connect always fails is tried exactly
`MAX_RECONNECT_ATTEMPTS = 3` times, with one `RECONNECT_DELAY` sleep between
consecutive tries and none after the last, before the loop moves on to the
remaining seeds in configuration order; and the bootstrap phase returns
`Ok(())` for every seed list and every connect/handshake behaviour. -/
theorem bootstrap_retry_policy (cOk hOk : String → Nat → Bool) (s0 : String)
    (rest : List String) (hfail : ∀ a, cOk s0 a = false) :
    (connect_to_bootstrap_nodes cOk hOk (s0 :: rest)).1
      = [BootEvent.connectTry s0, BootEvent.sleepDelay RECONNECT_DELAY_SECS,
         BootEvent.connectTry s0, BootEvent.sleepDelay RECONNECT_DELAY_SECS,
         BootEvent.connectTry s0]
        ++ (connect_to_bootstrap_nodes cOk hOk rest).1
    ∧ ∀ seeds : List String,
        (connect_to_bootstrap_nodes cOk hOk seeds).2 = Except.ok () := by
  constructor
  · have hseed : seed_retry_loop (cOk s0) (hOk s0) s0 0 MAX_RECONNECT_ATTEMPTS
        = [BootEvent.connectTry s0, BootEvent.sleepDelay RECONNECT_DELAY_SECS,
           BootEvent.connectTry s0, BootEvent.sleepDelay RECONNECT_DELAY_SECS,
           BootEvent.connectTry s0] := by
      simp [MAX_RECONNECT_ATTEMPTS, seed_retry_loop, hfail 0, hfail 1, hfail 2]
    unfold connect_to_bootstrap_nodes
    rw [List.map_cons, List.flatten_cons, hseed]
  · intro seeds
    rfl

theorem bootstrap_retry_policy_witness :
    (∀ a : Nat, (fun (_ : String) (_ : Nat) => false) "seedA" a = false)
    ∧ ((connect_to_bootstrap_nodes (fun _ _ => false) (fun _ _ => true)
          ["seedA", "seedB"]).1
        = [BootEvent.connectTry "seedA", BootEvent.sleepDelay RECONNECT_DELAY_SECS,
           BootEvent.connectTry "seedA", BootEvent.sleepDelay RECONNECT_DELAY_SECS,
           BootEvent.connectTry "seedA"]
          ++ (connect_to_bootstrap_nodes (fun _ _ => false) (fun _ _ => true) ["seedB"]).1
      ∧ ∀ seeds : List String,
          (connect_to_bootstrap_nodes (fun _ _ => false) (fun _ _ => true) seeds).2
            = Except.ok ()) :=
  ⟨fun _ => rfl, bootstrap_retry_policy (fun _ _ => false) (fun _ _ => true) "seedA"
    ["seedB"] (fun _ => rfl)⟩

/-- The observable steps of `Node::start` (network.rs lines 51-107), in the
order the source performs them. -/
inductive StartStep
  | stakeVerified
  | listenerBound
  | sweepTaskSpawned
  | bootstrapRun
  | acceptLoopEntered
deriving DecidableEq

/-- `Node::verify_stake` (network.rs lines 115-125): the ledger balance
query (whose transport failure propagates through `?`) compared against
`config.min_stake`. The `min_stake` field is read by the source but never
declared in `NodeConfig` (the spec records this open question), so it is
passed explicitly. -/
def verify_stake (balance : Except String Nat) (min_stake : Nat) : Except String Unit :=
  match balance with
  | Except.error e => Except.error e
  | Except.ok b => if b < min_stake then Except.error "Insufficient stake amount" else Except.ok ()

/-- `Node::start` (network.rs lines 51-107): `verify_stake()?`, then
`TcpListener::bind?`, then spawn the sweep task, then
`connect_to_bootstrap_nodes()?`, then the accept loop. The infinite accept
loop is cut off at its entry; the trace records which steps ran. -/
def start (balance : Except String Nat) (min_stake : Nat) (bindOk : Bool)
    (cOk hOk : String → Nat → Bool) (seeds : List String) :
    List StartStep × Except String Unit :=
  match verify_stake balance min_stake with
  | Except.error e => ([], Except.error e)
  | Except.ok _ =>
    if bindOk then
      match (connect_to_bootstrap_nodes cOk hOk seeds).2 with
      | Except.error e =>
        ([StartStep.stakeVerified, StartStep.listenerBound, StartStep.sweepTaskSpawned],
         Except.error e)
      | Except.ok _ =>
        ([StartStep.stakeVerified, StartStep.listenerBound, StartStep.sweepTaskSpawned,
          StartStep.bootstrapRun, StartStep.acceptLoopEntered],
         Except.ok ())
    else ([StartStep.stakeVerified], Except.error "bind failed")

/-- C8: when the balance query fails or every returned balance is below
`min_stake`, `start` aborts with an error and its trace is empty: the
listener is never bound and no later startup step (sweep task, bootstrap,
accept loop) runs. -/
theorem stake_gate_blocks_startup (balance : Except String Nat) (min_stake : Nat)
    (bindOk : Bool) (cOk hOk : String → Nat → Bool) (seeds : List String)
    (hgate : ∀ b, balance = Except.ok b → b < min_stake) :
    (start balance min_stake bindOk cOk hOk seeds).1 = []
    ∧ (∃ e, (start balance min_stake bindOk cOk hOk seeds).2 = Except.error e)
    ∧ StartStep.listenerBound ∉ (start balance min_stake bindOk cOk hOk seeds).1
    ∧ StartStep.sweepTaskSpawned ∉ (start balance min_stake bindOk cOk hOk seeds).1
    ∧ StartStep.bootstrapRun ∉ (start balance min_stake bindOk cOk hOk seeds).1
    ∧ StartStep.acceptLoopEntered ∉ (start balance min_stake bindOk cOk hOk seeds).1 := by
  have hvs : ∃ e, verify_stake balance min_stake = Except.error e := by
    match balance with
    | Except.error e => exact ⟨e, rfl⟩
    | Except.ok b =>
      refine ⟨"Insufficient stake amount", ?_⟩
      simp [verify_stake, hgate b rfl]
  rcases hvs with ⟨e, he⟩
  unfold start
  rw [he]
  simp

theorem stake_gate_blocks_startup_witness :
    (∀ b : Nat, (Except.ok 0 : Except String Nat) = Except.ok b → b < 1)
    ∧ ((start (Except.ok 0) 1 true (fun _ _ => true) (fun _ _ => true) []).1 = []
      ∧ (∃ e, (start (Except.ok 0) 1 true (fun _ _ => true) (fun _ _ => true) []).2
            = Except.error e)
      ∧ StartStep.listenerBound
          ∉ (start (Except.ok 0) 1 true (fun _ _ => true) (fun _ _ => true) []).1
      ∧ StartStep.sweepTaskSpawned
          ∉ (start (Except.ok 0) 1 true (fun _ _ => true) (fun _ _ => true) []).1
      ∧ StartStep.bootstrapRun
          ∉ (start (Except.ok 0) 1 true (fun _ _ => true) (fun _ _ => true) []).1
      ∧ StartStep.acceptLoopEntered
          ∉ (start (Except.ok 0) 1 true (fun _ _ => true) (fun _ _ => true) []).1) :=
  ⟨fun b hb => by injection hb with h; omega,
   stake_gate_blocks_startup (Except.ok 0) 1 true (fun _ _ => true) (fun _ _ => true) []
     (fun b hb => by injection hb with h; omega)⟩

/-! ## Address derivation (src/utils/address.rs) -/

/-- The constant `FRACTIS_PREFIX = "fractis"` of address.rs. -/
def fractisTag : List Char := "fractis".toList

/-- `SOLANA_ADDRESS_LENGTH = 44` (address.rs line 5). -/
def SOLANA_ADDRESS_LENGTH : Nat := 44

/-- Rust `char::is_ascii_hexdigit` (`0-9`, `a-f`, `A-F`). -/
def isAsciiHexDigit (c : Char) : Bool :=
  c.isDigit || ('a' ≤ c && c ≤ 'f') || ('A' ≤ c && c ≤ 'F')

/-- The lowercase hex digits produced by Rust's `{:x}` formatting. -/
def isLowerHexDigit (c : Char) : Bool :=
  c.isDigit || ('a' ≤ c && c ≤ 'f')

/-- One DJB2 step on the `u128` accumulator (address.rs line 41):
`hash = ((hash << 5).wrapping_add(hash)).wrapping_add(c as u128)`, each
operation wrapping modulo `2^128`. -/
def djb2Step (hash : Nat) (c : Char) : Nat :=
  ((hash * 32 % 2 ^ 128 + hash) % 2 ^ 128 + c.toNat) % 2 ^ 128

/-- The DJB2 loop of `from_solana` with initial value 5381 (address.rs
lines 36-42). -/
def djb2 (input : List Char) : Nat :=
  input.foldl djb2Step 5381

/-- A lowercase hex digit as formatted by `{:x}`. -/
def hexDigitChar (d : Nat) : Char :=
  if d < 10 then Char.ofNat (48 + d) else Char.ofNat (87 + d)

/-- `format!("{:016x}", n)` for `n < 2^64`: exactly 16 lowercase hex
digits, zero-padded, most significant first (address.rs line 45). -/
def hex16 (n : Nat) : List Char :=
  List.map (fun k => hexDigitChar (n / 16 ^ (15 - k) % 16)) (List.range 16)

/-- The four chained hash rounds of `from_solana` (address.rs lines
31-48): round `i` hashes the previous hex string with the decimal digit of
`i` appended, reduces modulo `2^64`, and formats 16 hex characters; the
four blocks are joined (address.rs line 51). -/
def fromSolanaHash (s : List Char) : List Char :=
  let h0 := hex16 (djb2 (s ++ ['0']) % 2 ^ 64)
  let h1 := hex16 (djb2 (h0 ++ ['1']) % 2 ^ 64)
  let h2 := hex16 (djb2 (h1 ++ ['2']) % 2 ^ 64)
  let h3 := hex16 (djb2 (h2 ++ ['3']) % 2 ^ 64)
  h0 ++ h1 ++ h2 ++ h3

/-- `FRACTISAddress::from_solana` (address.rs lines 20-53). Strings are
lists of characters; Rust's length check counts bytes, but the accepted
inputs (exactly 44 ASCII alphanumerics, `Char.isAlphanum` being exactly
`is_ascii_alphanumeric`) coincide under both counts. -/
def from_solana (s : List Char) : Option (List Char) :=
  if s.length == SOLANA_ADDRESS_LENGTH && s.all Char.isAlphanum then
    some (fractisTag ++ fromSolanaHash s)
  else none

/-- `FRACTISAddress::from_string` (address.rs lines 56-73): the
`starts_with(FRACTIS_PREFIX)` test, then the remainder must be exactly 64
ASCII hex digits; on success the input string itself is wrapped. Byte and
character counts coincide on all accepted strings. -/
def from_string (s : List Char) : Option (List Char) :=
  if List.take fractisTag.length s == fractisTag then
    if (List.drop fractisTag.length s).length == 64
        && (List.drop fractisTag.length s).all isAsciiHexDigit then
      some s
    else none
  else none

lemma hexDigitChar_lower (d : Nat) (hd : d < 16) : isLowerHexDigit (hexDigitChar d) = true := by
  interval_cases d <;> decide

lemma hex16_length (n : Nat) : (hex16 n).length = 16 := by
  simp [hex16]

lemma hex16_all_lower (n : Nat) : (hex16 n).all isLowerHexDigit = true := by
  unfold hex16
  apply List.all_eq_true.mpr
  intro c hc
  rcases List.mem_map.mp hc with ⟨k, _, rfl⟩
  exact hexDigitChar_lower _ (Nat.mod_lt _ (by norm_num))

lemma lower_hex_imp_ascii_hex (c : Char) (h : isLowerHexDigit c = true) :
    isAsciiHexDigit c = true := by
  simp [isLowerHexDigit] at h
  simp [isAsciiHexDigit]
  tauto

lemma fromSolanaHash_length (s : List Char) : (fromSolanaHash s).length = 64 := by
  simp [fromSolanaHash, hex16_length]

lemma fromSolanaHash_all_lower (s : List Char) :
    (fromSolanaHash s).all isLowerHexDigit = true := by
  simp [fromSolanaHash, List.all_append, hex16_all_lower]

lemma fromSolanaHash_all_ascii (s : List Char) :
    (fromSolanaHash s).all isAsciiHexDigit = true := by
  apply List.all_eq_true.mpr
  intro c hc
  exact lower_hex_imp_ascii_hex c (List.all_eq_true.mp (fromSolanaHash_all_lower s) c hc)

/-- C10: every address produced by `from_solana` is the `fractis` tag
followed by exactly 64 lowercase hex characters, is accepted unchanged by
`from_string` (round-trip), and is produced deterministically. -/
theorem from_solana_roundtrip (s a : List Char) (h : from_solana s = some a) :
    a.length = fractisTag.length + 64
    ∧ List.take fractisTag.length a = fractisTag
    ∧ (List.drop fractisTag.length a).length = 64
    ∧ (List.drop fractisTag.length a).all isLowerHexDigit = true
    ∧ from_string a = some a
    ∧ ∀ a' : List Char, from_solana s = some a' → a' = a := by
  unfold from_solana at h
  by_cases hc : (s.length == SOLANA_ADDRESS_LENGTH && s.all Char.isAlphanum) = true
  case neg =>
    rw [if_neg hc] at h
    exact absurd h (by simp)
  rw [if_pos hc] at h
  have ha : a = fractisTag ++ fromSolanaHash s := (Option.some.inj h).symm
  subst ha
  have htake : List.take fractisTag.length (fractisTag ++ fromSolanaHash s) = fractisTag :=
    List.take_left fractisTag (fromSolanaHash s)
  have hdrop : List.drop fractisTag.length (fractisTag ++ fromSolanaHash s)
      = fromSolanaHash s :=
    List.drop_left fractisTag (fromSolanaHash s)
  refine ⟨?_, htake, ?_, ?_, ?_, ?_⟩
  · simp [fromSolanaHash_length]
  · rw [hdrop]
    exact fromSolanaHash_length s
  · rw [hdrop]
    exact fromSolanaHash_all_lower s
  · unfold from_string
    rw [htake, hdrop]
    simp [fromSolanaHash_length, fromSolanaHash_all_ascii]
  · intro a' h'
    unfold from_solana at h'
    rw [if_pos hc] at h'
    exact (Option.some.inj h').symm

theorem from_solana_roundtrip_witness :
    from_solana (List.replicate 44 'a')
        = some ((from_solana (List.replicate 44 'a')).getD [])
    ∧ from_string ((from_solana (List.replicate 44 'a')).getD [])
        = some ((from_solana (List.replicate 44 'a')).getD []) :=
  ⟨rfl, (from_solana_roundtrip (List.replicate 44 'a')
      ((from_solana (List.replicate 44 'a')).getD []) rfl).2.2.2.2.1⟩

end Fractis
